import Mathlib

/-!
Shallow embedding of the `mcp-bridge-manim` repository: the stdio MCP tool
server (`manim_mcp_server.py`) and the HTTP bridge (`mcp_bridge.py`).

Pure string/path manipulation is translated directly; filesystem and
subprocess interaction is embedded by passing the relevant outcomes
(existence checks, listings, return codes, produced lines) explicitly as
parameters, and every function additionally reports the side effects it
performs (files written, subprocesses launched, messages sent on the pipe),
so that "does not write / does not spawn" claims are statable.

String primitives are defined over `List Char` so that all definitions
evaluate by kernel reduction (`decide` / `rfl`).
-/

namespace Manim

/-- Python `s.startswith(p)`. -/
def strStarts (s p : String) : Bool :=
  p.data.isPrefixOf s.data

/-- Python `s.endswith(p)`. -/
def strEnds (s p : String) : Bool :=
  p.data.isSuffixOf s.data

/-- Python `s[n:]` (character slicing; the paths involved are ASCII). -/
def strDrop (s : String) (n : Nat) : String :=
  String.mk (s.data.drop n)

/-- Drop the last `n` characters. -/
def strDropRight (s : String) (n : Nat) : String :=
  String.mk (s.data.take (s.data.length - n))

/-- First `n` characters, Python `s[:n]`. -/
def strTake (s : String) (n : Nat) : String :=
  String.mk (s.data.take n)

/-- Split a character list at every occurrence of `c`. -/
def splitCharList (c : Char) : List Char → List (List Char)
  | [] => [[]]
  | x :: xs =>
    let r := splitCharList c xs
    if x = c then [] :: r
    else
      match r with
      | [] => [[x]]
      | h :: t => (x :: h) :: t

/-- Python `s.split("/")` (the separator `os.sep` on POSIX). -/
def pySplitSlash (s : String) : List String :=
  (splitCharList '/' s.data).map String.mk

/-- Python `", ".join(xs)`-style interleaving. -/
def strIntercalate (sep : String) : List String → String
  | [] => ""
  | [x] => x
  | x :: xs => x ++ sep ++ strIntercalate sep xs

/-- Python substring membership `pat in s`, on character lists. -/
def listHasInfix (hay pat : List Char) : Bool :=
  if pat.isPrefixOf hay then true
  else
    match hay with
    | [] => false
    | _ :: t => listHasInfix t pat

/-- Python `pat in s` for strings. -/
def strHasInfix (s pat : String) : Bool :=
  listHasInfix s.data pat.data

/-- POSIX `os.path.join` for two components, as Python `posixpath.join`
computes it: an absolute second component resets the path. -/
def osJoin (a b : String) : String :=
  if strStarts b "/" then b
  else if a = "" then b
  else if strEnds a "/" then a ++ b
  else a ++ "/" ++ b

/-- Three-component `os.path.join`. -/
def osJoin3 (a b c : String) : String :=
  osJoin (osJoin a b) c

/-- Environment configuration of `manim_mcp_server.py`: the Docker flag
(`RUNNING_IN_DOCKER`) and the resolved `PROJECT_ROOT`. -/
structure Cfg where
  runningInDocker : Bool
  projectRoot : String

/-- `adjust_path` from `manim_mcp_server.py`: rewrites container-style
absolute path prefixes to host paths when not running in Docker. -/
def adjust_path (cfg : Cfg) (path : String) : String :=
  if !cfg.runningInDocker && strStarts path "/" then
    if strStarts path "/manim/temp" then
      osJoin3 cfg.projectRoot "temp" (strDrop path 12)
    else if strStarts path "/manim/output" then
      osJoin3 cfg.projectRoot "output" (strDrop path 13)
    else if strStarts path "/manim" then
      osJoin cfg.projectRoot (strDrop path 7)
    else if strStarts path "/temp/" then
      osJoin3 cfg.projectRoot "temp" (strDrop path 6)
    else if strStarts path "/output/" then
      osJoin3 cfg.projectRoot "output" (strDrop path 8)
    else path
  else path

/-- `ALLOWED_BASE_DIRS` from `manim_mcp_server.py`. -/
def allowedBaseDirs (cfg : Cfg) : List String :=
  if cfg.runningInDocker then
    ["/manim", "/app", "/media", "/usr/local", "/tmp"]
  else
    [cfg.projectRoot,
     osJoin cfg.projectRoot "temp",
     osJoin cfg.projectRoot "output",
     osJoin cfg.projectRoot "animations",
     "/tmp"]

/-- The allow-list test from `read_file` / `list_directories`:
`filepath == base or filepath.startswith(base + os.sep)`. -/
def underAllowedBase (cfg : Cfg) (fp : String) : Bool :=
  (allowedBaseDirs cfg).any (fun base => fp == base || strStarts fp (base ++ "/"))

/-- The path-traversal test from `read_file` / `list_directories`:
`".." in filepath.split(os.sep)`. -/
def hasDotDotSegment (fp : String) : Bool :=
  (pySplitSlash fp).contains ".."

end Manim

namespace Manim

/-- Filesystem as `read_file` observes it: which paths exist, which of
those are regular files, and the content of each file. -/
structure ReadFs where
  files : List (String × String)
  dirs : List String

def ReadFs.pathExists (fs : ReadFs) (p : String) : Bool :=
  fs.files.any (fun e => e.1 == p) || fs.dirs.contains p

def ReadFs.isRegularFile (fs : ReadFs) (p : String) : Bool :=
  fs.files.any (fun e => e.1 == p)

def ReadFs.contentOf (fs : ReadFs) (p : String) : String :=
  ((fs.files.find? (fun e => e.1 == p)).map (·.2)).getD ""

/-- Result of a tool call together with the list of file paths the call
actually opened for reading. -/
structure ReadOutcome where
  result : String
  opened : List String
deriving DecidableEq, Repr

/-- `read_file` from `manim_mcp_server.py` (lines 439-474): adjusts the
path, rejects `..` segments and paths outside the allow-list, then reads
(truncating past 100000 characters). -/
def read_file (cfg : Cfg) (fs : ReadFs) (filepath0 : String) : ReadOutcome :=
  let filepath := adjust_path cfg filepath0
  if hasDotDotSegment filepath then
    { result := "Error: Path traversal attempts are not allowed", opened := [] }
  else if !underAllowedBase cfg filepath then
    { result := "Error: Access is only allowed to these base directories: " ++
        strIntercalate ", " (allowedBaseDirs cfg), opened := [] }
  else if !fs.pathExists filepath then
    { result := "Error: File not found: " ++ filepath, opened := [] }
  else if !fs.isRegularFile filepath then
    { result := "Error: Path is not a file: " ++ filepath, opened := [] }
  else
    let content := fs.contentOf filepath
    let content :=
      if content.length > 100000 then
        strTake content 100000 ++ "\n... (content truncated, file too large)"
      else content
    { result := "File: " ++ filepath ++ "\n\n" ++ content, opened := [filepath] }

/-- Filesystem outcomes `write_manim_script` depends on: whether the target
directory already exists, whether `os.makedirs` succeeds (with the raised
message when it fails), and whether `open(..., 'w')` succeeds. -/
structure WriteEnv where
  dirExists : Bool
  mkdirOk : Bool
  mkdirErr : String
  writeOk : Bool
  writeErr : String

/-- Result of `write_manim_script` together with the writes performed,
as (path, content) pairs. -/
structure WriteOutcome where
  result : String
  written : List (String × String)
deriving DecidableEq, Repr

/-- The script path `write_manim_script` targets for a given filename. -/
def scriptPath (cfg : Cfg) (filename : String) : String :=
  if cfg.runningInDocker then "/manim/temp/" ++ filename
  else osJoin3 cfg.projectRoot "temp" filename

/-- `write_manim_script` from `manim_mcp_server.py` (lines 131-165):
rejects filenames containing a path separator, otherwise writes the
content under the temp directory and reports the path. -/
def write_manim_script (cfg : Cfg) (env : WriteEnv) (content filename : String) :
    WriteOutcome :=
  if strHasInfix filename "/" then
    { result := "Error: Filename should not include path separators", written := [] }
  else
    let filepath := scriptPath cfg filename
    if !env.dirExists && !env.mkdirOk then
      { result := "Error: Failed to create directory " ++
          (strDropRight filepath (filename.length + 1)) ++ ": " ++ env.mkdirErr,
        written := [] }
    else if !env.writeOk then
      { result := "Error: Failed to write file: " ++ env.writeErr, written := [] }
    else
      { result := "Successfully wrote script to " ++ filepath ++
          ". You can now render it with the render_manim_animation tool.",
        written := [(filepath, content)] }

end Manim

namespace Manim

/-- Python `s[-n:]`. -/
def strTakeRight (s : String) (n : Nat) : String :=
  String.mk (s.data.drop (s.data.length - n))

/-- Python `os.path.basename` on POSIX: the part after the last `/`. -/
def pyBasename (s : String) : String :=
  (pySplitSlash s).getLastD ""

/-- One subprocess launched by `render_manim_animation`: the
manim-availability check (`python -c "import manim; ..."`) or the actual
`python -m manim ...` rendering command. -/
inductive Subproc where
  | manimCheck (exe : String)
  | render (cmd : List String)
deriving DecidableEq, Repr

/-- Whether a subprocess invocation is the rendering command. -/
def Subproc.isRenderCmd : Subproc → Bool
  | .render _ => true
  | _ => false

/-- Outcome of `subprocess.run` on the rendering command. -/
inductive RenderRun where
  | timedOut
  | done (returncode : Int) (stdout stderr : String)
deriving DecidableEq, Repr

/-- External outcomes `render_manim_animation` depends on: existence
checks, the generated job id, subprocess results, and what the
post-render file search finds. -/
structure RenderEnv where
  fileExists : Bool
  jobId : String
  pythonExe : String
  mediaDir : String
  manimCheckRaises : Bool
  manimCheckRaiseMsg : String
  manimCheckRc : Int
  manimCheckErr : String
  mkMediaOk : Bool
  mkMediaErr : String
  mediaWritable : Bool
  mkTempOk : Bool
  mkTempErr : String
  linkOk : Bool
  linkErr : String
  run : RenderRun
  expectedOutputExists : Bool
  copyOk : Bool
  copyErr : String
  walkCopied : Bool
  mainDirJobFiles : List String

/-- The `-ql`/`-qm`/`-qh`/`-qk` flag chain from `render_manim_animation`
(lines 248-257); `none` is the `Unknown quality level` branch. -/
def qualityFlag (quality : String) : Option String :=
  if quality == "low_quality" then some "-ql"
  else if quality == "medium_quality" then some "-qm"
  else if quality == "high_quality" then some "-qh"
  else if quality == "production_quality" then some "-qk"
  else none

/-- `quality_map.get(quality, "480p15")` from lines 291-297. -/
def qualityDir (quality : String) : String :=
  if quality == "low_quality" then "480p15"
  else if quality == "medium_quality" then "720p30"
  else if quality == "high_quality" then "1080p60"
  else if quality == "production_quality" then "2160p60"
  else "480p15"

/-- The response assembly of `render_manim_animation` lines 299-378, for a
completed (non-timeout) rendering subprocess. Returns the final response
string, or an early `Error copying rendered file` result. -/
def renderResponse (env : RenderEnv) (scene_name : String)
    (cmd : List String) (rc : Int) (stdout stderr : String) : String :=
  let output_file := osJoin env.mediaDir (env.jobId ++ ".mp4")
  let temp_work_dir := osJoin env.mediaDir ("temp_work_" ++ env.jobId)
  let debug_cmd := strIntercalate " " cmd
  let found :=
    if env.expectedOutputExists then
      if env.copyOk then some ([pyBasename output_file], some output_file)
      else none
    else
      some (if env.walkCopied then ([pyBasename output_file], some output_file)
            else ([], none))
  match found with
  | none => "Error copying rendered file: " ++ env.copyErr
  | some (files0, actual_output_file) =>
    let files := files0 ++ env.mainDirJobFiles
    let response :=
      ["Animation rendered successfully! Job ID: " ++ env.jobId,
       "Command used: " ++ debug_cmd,
       "Working directory: " ++ temp_work_dir,
       "Media directory: " ++ env.mediaDir,
       "Scene: " ++ scene_name,
       "Return code: " ++ toString rc,
       ""]
    let response :=
      if rc == 0 then
        response ++ ["✅ Rendering completed successfully"] ++
        (match actual_output_file with
         | some p => ["✅ Output file created: " ++ p]
         | none => []) ++
        ["Files generated: " ++ toString files.length] ++
        files.map (fun f => "- " ++ f) ++
        (if stdout ≠ "" then ["", "Manim output:", strTakeRight stdout 1000] else [])
      else
        response ++ ["❌ Rendering failed"] ++
        (if stderr ≠ "" then ["", "Error details:", strTakeRight stderr 1000] else [])
    let response := response ++
      ["", "To view your animation, use the get_animation_result tool with job_id: " ++
        env.jobId]
    strIntercalate "\n" response

/-- `render_manim_animation` from `manim_mcp_server.py` (lines 167-391):
default/adjusted script path, existence check, manim-availability check
subprocess, media/temp directory setup, quality-flag validation, the
rendering subprocess (with 300 s timeout), and the response assembly.
The second component lists every subprocess the call launched. -/
def render_manim_animation (cfg : Cfg) (env : RenderEnv)
    (scene_name : String) (filepath? : Option String) (quality : String) :
    String × List Subproc :=
  let filepath :=
    match filepath? with
    | none =>
      if cfg.runningInDocker then "/manim/temp/ai_generated_manim_script.py"
      else osJoin3 cfg.projectRoot "temp" "ai_generated_manim_script.py"
    | some p => adjust_path cfg p
  if !env.fileExists then
    ("Error: File not found: " ++ filepath, [])
  else
    let checkProc := Subproc.manimCheck env.pythonExe
    if env.manimCheckRaises then
      ("Error: Cannot check Manim installation: " ++ env.manimCheckRaiseMsg, [checkProc])
    else if env.manimCheckRc != 0 then
      ("Error: Manim is not installed in the current Python environment. " ++
       "Please install with: pip install manim\nUsing Python: " ++ env.pythonExe ++
       "\nError: " ++ env.manimCheckErr, [checkProc])
    else if !env.mkMediaOk then
      ("Error: Failed to create media directory " ++ env.mediaDir ++ ": " ++
        env.mkMediaErr, [checkProc])
    else if !env.mediaWritable then
      ("Error: Media directory " ++ env.mediaDir ++ " is not writable", [checkProc])
    else if !env.mkTempOk then
      ("Error: Failed to create temporary working directory: " ++ env.mkTempErr,
       [checkProc])
    else if !env.linkOk then
      ("Error: Could not create media directory or symlink: " ++ env.linkErr,
       [checkProc])
    else
      match qualityFlag quality with
      | none => ("Error: Unknown quality level: " ++ quality, [checkProc])
      | some flag =>
        let cmd := [env.pythonExe, "-m", "manim", "--media_dir=" ++ env.mediaDir,
                    flag, filepath, scene_name]
        let procs := [checkProc, Subproc.render cmd]
        match env.run with
        | .timedOut =>
          ("Error: Rendering timed out after 5 minutes. The animation may be too complex.",
           procs)
        | .done rc stdout stderr =>
          (renderResponse env scene_name cmd rc stdout stderr, procs)

/-- Filesystem as `get_animation_result` observes it: per-directory
listings, each entry a name together with its `os.path.isfile` status. -/
structure DirFs where
  entries : List (String × List (String × Bool))
deriving DecidableEq, Repr

def DirFs.dirExists (fs : DirFs) (p : String) : Bool :=
  fs.entries.any (fun e => e.1 == p)

def DirFs.listing (fs : DirFs) (p : String) : List (String × Bool) :=
  ((fs.entries.find? (fun e => e.1 == p)).map (·.2)).getD []

/-- `get_animation_result` from `manim_mcp_server.py` (lines 393-437):
scans the job-specific output directory and the main output directory for
files whose name contains the job id, and formats the findings. The
function threads the filesystem state through unchanged — it only reads
directories. -/
def get_animation_result (cfg : Cfg) (fs : DirFs) (job_id : String) :
    String × DirFs :=
  let job_output_dir :=
    if cfg.runningInDocker then "/manim/output/" ++ job_id
    else osJoin3 cfg.projectRoot "output" job_id
  let main_output_dir :=
    if cfg.runningInDocker then "/manim/output"
    else osJoin cfg.projectRoot "output"
  let files1 :=
    if fs.dirExists job_output_dir then
      ((fs.listing job_output_dir).filter (fun e => e.2)).map
        (fun e => ("job_dir", e.1, osJoin job_output_dir e.1))
    else []
  let files2 :=
    if fs.dirExists main_output_dir then
      ((fs.listing main_output_dir).filter
        (fun e => e.2 && strHasInfix e.1 job_id)).map
        (fun e => ("main_dir", e.1, osJoin main_output_dir e.1))
    else []
  let files := files1 ++ files2
  let result :=
    if files.isEmpty then
      "No animation files found for job ID: " ++ job_id
    else
      let response :=
        ["Animation results for job ID: " ++ job_id,
         "Files found: " ++ toString files.length,
         ""] ++
        files.map (fun e =>
          "- " ++ e.2.1 ++ " (in " ++
          (if e.1 == "job_dir" then "job directory" else "output directory") ++
          ": " ++ e.2.2 ++ ")")
      strIntercalate "\n" response
  (result, fs)

end Manim

namespace Bridge

open Manim (osJoin osJoin3 strStarts strEnds pyBasename strIntercalate)

/-- JSON values, as `json.loads` produces them. -/
inductive Json where
  | null
  | bool (b : Bool)
  | num (n : Int)
  | str (s : String)
  | arr (xs : List Json)
  | obj (fields : List (String × Json))

/-- Python `"k" in parsed_object`. -/
def Json.hasKey : Json → String → Bool
  | .obj fields, k => fields.any (fun f => f.1 == k)
  | _, _ => false

/-- What one `readline()` on the child's stdout produced: an empty read
(end of stream), a line `json.loads` rejects, or a parsed JSON value. -/
inductive LineRead where
  | noLine
  | invalid (raw : String)
  | parsed (j : Json)

/-- One message written to the child's stdin: its `id` field (absent for
notifications) and its `method`. -/
structure OutMsg where
  id : Option Nat
  method : String
deriving DecidableEq, Repr

/-- Observable side effects of one bridge call: how many `subprocess.Popen`
spawns were attempted and which messages were written to the pipe. -/
structure Trace where
  spawnAttempts : Nat
  sent : List OutMsg
deriving DecidableEq, Repr

/-- The bridge's process-wide mutable state: the globals `mcp_process`
(modelled as `Option Unit`) and `request_id_counter`. -/
structure BridgeState where
  mcp_process : Option Unit
  request_id_counter : Nat
deriving DecidableEq, Repr

/-- The freshly started bridge: `mcp_process = None`,
`request_id_counter = 0`. -/
def BridgeState.initial : BridgeState := { mcp_process := none, request_id_counter := 0 }

/-- Child-process behaviour during `start_mcp_server`: whether
`subprocess.Popen` succeeds, and the line the handshake read returns. -/
structure ChildEnv where
  spawnOk : Bool
  initLine : LineRead

/-- `start_mcp_server` from `mcp_bridge.py` (lines 224-301): if a process
handle is cached, return `True` immediately; otherwise spawn the child,
send the `initialize` request carrying the literal id `1`, read one line,
and require it to parse as JSON with a `result` key before sending the
`notifications/initialized` notification. Failure paths return `False`;
note that after a successful `Popen` the global `mcp_process` is assigned
and is never reset on the failure paths. -/
def start_mcp_server (st : BridgeState) (env : ChildEnv) :
    BridgeState × Bool × Trace :=
  if st.mcp_process.isSome then (st, true, ⟨0, []⟩)
  else if !env.spawnOk then (st, false, ⟨1, []⟩)
  else
    let st1 : BridgeState := { st with mcp_process := some () }
    let initMsg : OutMsg := { id := some 1, method := "initialize" }
    match env.initLine with
    | .noLine => (st1, false, ⟨1, [initMsg]⟩)
    | .invalid _ => (st1, false, ⟨1, [initMsg]⟩)
    | .parsed j =>
      if j.hasKey "result" then
        (st1, true, ⟨1, [initMsg, { id := none, method := "notifications/initialized" }]⟩)
      else (st1, false, ⟨1, [initMsg]⟩)

/-- The dictionary `send_mcp_request` returns: the parsed response, or an
`{"error": ...}` dictionary. -/
inductive MCPResult where
  | ok (j : Json)
  | error (msg : String)

/-- The `"error"` entry of the returned dictionary, when the call failed. -/
def MCPResult.errMsg? : MCPResult → Option String
  | .error m => some m
  | .ok _ => none

/-- Whether the call returned a parsed response rather than an error
dictionary. -/
def MCPResult.isOk : MCPResult → Bool
  | .ok _ => true
  | .error _ => false

/-- Child-process behaviour during one `send_mcp_request` call: the
environment a spawn attempt would see, the line the response read
returns, and the stderr line checked after an empty read. -/
structure CallEnv where
  start : ChildEnv
  respLine : LineRead
  stderrLine : Option String

/-- `send_mcp_request` from `mcp_bridge.py` (lines 303-354): starts the
child only when `mcp_process` is `None`, allocates the next request id by
incrementing the global counter, writes the request, reads one response
line, and maps empty reads and JSON decode failures to `error`
dictionaries. -/
def send_mcp_request (st : BridgeState) (method : String) (env : CallEnv) :
    BridgeState × MCPResult × Trace :=
  let startNeeded := st.mcp_process.isNone
  let startRes :=
    if startNeeded then start_mcp_server st env.start else (st, true, ⟨0, []⟩)
  let st1 := startRes.1
  let ok := startRes.2.1
  let tr := startRes.2.2
  if startNeeded && !ok then
    (st1, .error "Failed to start MCP server", tr)
  else if st1.mcp_process.isNone then
    (st1, .error "Failed to start MCP server", tr)
  else
    let st2 : BridgeState := { st1 with request_id_counter := st1.request_id_counter + 1 }
    let msg : OutMsg := { id := some st2.request_id_counter, method := method }
    let tr : Trace := { tr with sent := tr.sent ++ [msg] }
    match env.respLine with
    | .parsed j => (st2, .ok j, tr)
    | .invalid raw => (st2, .error ("Invalid JSON response: " ++ raw), tr)
    | .noLine =>
      match env.stderrLine with
      | some e => (st2, .error ("MCP server error: " ++ e), tr)
      | none => (st2, .error "No response from MCP server", tr)

/-- Run a sequence of `send_mcp_request` calls, collecting every message
written to the pipe. -/
def runSends (st : BridgeState) : List (String × CallEnv) → BridgeState × List OutMsg
  | [] => (st, [])
  | (m, env) :: rest =>
    let r := send_mcp_request st m env
    let rec' := runSends r.1 rest
    (rec'.1, r.2.2.sent ++ rec'.2)

/-- The `output` directory tree as `os.walk("output")` enumerates it:
a list of (directory path, file names) pairs, the first being
`("output", ...)` itself. -/
def OutputFs := List (String × List String)

/-- Every file path in the output directory tree. -/
def outputFiles (fs : OutputFs) : List String :=
  fs.flatMap (fun e => e.2.map (fun f => osJoin e.1 f))

/-- `os.path.exists p and os.path.isfile p`, for paths checked against the
output tree. -/
def isOutputFile (fs : OutputFs) (p : String) : Bool :=
  (outputFiles fs).contains p

/-- Outcome of `GET /video/{filename}`: a 404, or serving the file at the
given path. -/
inductive VideoResult where
  | notFound (filename : String)
  | serve (path : String)
deriving DecidableEq, Repr

/-- The final step of `serve_video` (lines 102-126): 404 when nothing was
found or the found path no longer exists, otherwise serve the path. -/
def serveDecision (fs : OutputFs) (filename : String) : Option String → VideoResult
  | none => .notFound filename
  | some p => if isOutputFile fs p then .serve p else .notFound filename

/-- `serve_video` from `mcp_bridge.py` (lines 68-126): reduces the request
to its basename, probes `output/{name}` and `output/{name}.mp4`, then
walks the output tree for an `.mp4` whose name matches, and finally
re-checks existence before serving (walking a nonexistent `output`
directory enumerates nothing, so the `os.path.exists(output_dir)` guard is
the `fs = []` case). -/
def serve_video (fs : OutputFs) (filename0 : String) : VideoResult :=
  let filename := pyBasename filename0
  let possible_paths :=
    [osJoin "output" filename,
     if strEnds filename ".mp4" then osJoin "output" filename
     else osJoin "output" (filename ++ ".mp4")]
  let video_path := possible_paths.find? (fun p => isOutputFile fs p)
  let video_path :=
    match video_path with
    | some p => some p
    | none =>
      fs.findSome? (fun e =>
        (e.2.find? (fun file =>
          (file == filename || file == filename ++ ".mp4") &&
            strEnds file ".mp4")).map
          (fun file => osJoin e.1 file))
  serveDecision fs filename video_path

end Bridge

/-! Helper lemmas shared by the claim theorems. -/

theorem Manim.strStarts_append_of_strStarts (a b p : String)
    (h : Manim.strStarts a p = true) : Manim.strStarts (a ++ b) p = true := by
  simp only [Manim.strStarts, List.isPrefixOf_iff_prefix] at h ⊢
  rw [String.data_append]
  exact h.trans (List.prefix_append _ _)

theorem Bridge.mem_outputFiles_of_isOutputFile (fs : Bridge.OutputFs) (p : String)
    (h : Bridge.isOutputFile fs p = true) : p ∈ Bridge.outputFiles fs := by
  simpa [Bridge.isOutputFile] using h

/-! Sanity checks on the path helpers. -/

example : Manim.osJoin "/root/proj" "temp" = "/root/proj/temp" := by decide

example :
    Manim.adjust_path ⟨false, "/root/proj"⟩ "/manim/temp/x.py" =
      "/root/proj/temp/x.py" := by decide

example :
    Manim.hasDotDotSegment "/tmp/../etc/passwd" = true := by decide

example :
    Manim.underAllowedBase ⟨true, ""⟩ "/tmp/x" = true := by decide

example :
    Manim.underAllowedBase ⟨true, ""⟩ "/etc/passwd" = false := by decide

/-! ## Claim C5: `write_manim_script` filename validation -/

/-- C5: for every filename containing a path separator,
`write_manim_script` returns the validation error and writes no file; for
every filename without a path separator (and a writable temp directory) it
writes the given content to that filename under the temp directory and
reports the resulting filepath. -/
theorem write_manim_script_separator_validation
    (cfg : Manim.Cfg) (env : Manim.WriteEnv) (content filename : String) :
    (Manim.strHasInfix filename "/" = true →
      Manim.write_manim_script cfg env content filename =
        { result := "Error: Filename should not include path separators",
          written := [] }) ∧
    (Manim.strHasInfix filename "/" = false →
      (env.dirExists = true ∨ env.mkdirOk = true) →
      env.writeOk = true →
      Manim.write_manim_script cfg env content filename =
        { result := "Successfully wrote script to " ++ Manim.scriptPath cfg filename ++
            ". You can now render it with the render_manim_animation tool.",
          written := [(Manim.scriptPath cfg filename, content)] }) := by
  constructor
  · intro h
    simp [Manim.write_manim_script, h]
  · intro h1 h2 h3
    rcases h2 with h2 | h2 <;>
      simp [Manim.write_manim_script, h1, h2, h3]

/-- C5 witness: the guarantees at concrete inputs — a traversal-ish name is
rejected, a plain name is written under the temp directory. -/
theorem write_manim_script_separator_validation_witness :
    Manim.write_manim_script ⟨true, ""⟩ ⟨true, true, "", true, ""⟩ "print(1)" "../evil.py" =
      { result := "Error: Filename should not include path separators", written := [] } ∧
    Manim.write_manim_script ⟨true, ""⟩ ⟨true, true, "", true, ""⟩ "print(1)" "scene.py" =
      { result := "Successfully wrote script to /manim/temp/scene.py. You can now render it with the render_manim_animation tool.",
        written := [("/manim/temp/scene.py", "print(1)")] } :=
  ⟨(write_manim_script_separator_validation ⟨true, ""⟩ ⟨true, true, "", true, ""⟩
      "print(1)" "../evil.py").1 (by decide),
   (write_manim_script_separator_validation ⟨true, ""⟩ ⟨true, true, "", true, ""⟩
      "print(1)" "scene.py").2 (by decide) (Or.inl rfl) rfl⟩

/-! ## Claim C6: `read_file` path validation -/

/-- C6: for every filepath whose environment-adjusted form contains a `..`
segment or does not lie under any allow-listed base directory, `read_file`
returns an `Error`-prefixed message and opens no file. -/
theorem read_file_rejects_traversal_and_outside_paths
    (cfg : Manim.Cfg) (fs : Manim.ReadFs) (filepath : String)
    (h : Manim.hasDotDotSegment (Manim.adjust_path cfg filepath) = true ∨
         Manim.underAllowedBase cfg (Manim.adjust_path cfg filepath) = false) :
    Manim.strStarts (Manim.read_file cfg fs filepath).result "Error" = true ∧
    (Manim.read_file cfg fs filepath).opened = [] := by
  rcases h with h | h
  · simp [Manim.read_file, h]
    decide
  · by_cases h2 : Manim.hasDotDotSegment (Manim.adjust_path cfg filepath) = true
    · simp [Manim.read_file, h2]
      decide
    · simp [Manim.read_file, h, h2]
      exact Manim.strStarts_append_of_strStarts _ _ _ (by decide)

/-- C6 witness: concrete rejected inputs in the Docker configuration — a
path with a `..` segment, and a path outside the allow-list. -/
theorem read_file_rejects_traversal_and_outside_paths_witness :
    (Manim.hasDotDotSegment (Manim.adjust_path ⟨true, "/"⟩ "/manim/../etc/passwd") = true ∨
      Manim.underAllowedBase ⟨true, "/"⟩ (Manim.adjust_path ⟨true, "/"⟩ "/manim/../etc/passwd") = false) ∧
    Manim.strStarts (Manim.read_file ⟨true, "/"⟩ ⟨[], []⟩ "/manim/../etc/passwd").result "Error" = true ∧
    (Manim.read_file ⟨true, "/"⟩ ⟨[], []⟩ "/manim/../etc/passwd").opened = [] ∧
    Manim.strStarts (Manim.read_file ⟨true, "/"⟩ ⟨[("/etc/passwd", "root")], []⟩ "/etc/passwd").result "Error" = true ∧
    (Manim.read_file ⟨true, "/"⟩ ⟨[("/etc/passwd", "root")], []⟩ "/etc/passwd").opened = [] := by
  refine ⟨Or.inl (by decide), ?_⟩
  have h1 := read_file_rejects_traversal_and_outside_paths ⟨true, "/"⟩ ⟨[], []⟩
    "/manim/../etc/passwd" (Or.inl (by decide))
  have h2 := read_file_rejects_traversal_and_outside_paths ⟨true, "/"⟩
    ⟨[("/etc/passwd", "root")], []⟩ "/etc/passwd" (Or.inr (by decide))
  exact ⟨h1.1, h1.2, h2.1, h2.2⟩

/-! ## Claim C8: `get_animation_result` is read-only and idempotent -/

/-- C8: `get_animation_result` leaves the filesystem unchanged, so calling
it twice with the same job id (with no interleaving filesystem change)
returns the same file list. -/
theorem get_animation_result_idempotent
    (cfg : Manim.Cfg) (fs : Manim.DirFs) (job_id : String) :
    (Manim.get_animation_result cfg fs job_id).2 = fs ∧
    (Manim.get_animation_result cfg
        (Manim.get_animation_result cfg fs job_id).2 job_id).1 =
      (Manim.get_animation_result cfg fs job_id).1 := by
  have hfs : (Manim.get_animation_result cfg fs job_id).2 = fs := rfl
  exact ⟨hfs, by rw [hfs]⟩

/-! ## Claims C4 and C7: `render_manim_animation` -/

/-- A render environment in which every pre-render check passes: the
script file exists, the manim-availability check exits 0, directories are
creatable and writable, and the rendering subprocess exits 0 cleanly. -/
def Manim.renvOK : Manim.RenderEnv :=
  { fileExists := true
    jobId := "j1"
    pythonExe := "python3"
    mediaDir := "/manim/output"
    manimCheckRaises := false
    manimCheckRaiseMsg := ""
    manimCheckRc := 0
    manimCheckErr := ""
    mkMediaOk := true
    mkMediaErr := ""
    mediaWritable := true
    mkTempOk := true
    mkTempErr := ""
    linkOk := true
    linkErr := ""
    run := .done 0 "" ""
    expectedOutputExists := true
    copyOk := true
    copyErr := ""
    walkCopied := false
    mainDirJobFiles := [] }

/-- C4 counterexample: with an existing script file and every environment
check passing, the unknown quality `"ultra"` yields the validation error,
but the manim-availability check subprocess has already been launched —
the call did invoke a subprocess. -/
theorem render_unknown_quality_check_subprocess_runs :
    (Manim.render_manim_animation ⟨true, ""⟩ Manim.renvOK "MyScene" none "ultra").1 =
      "Error: Unknown quality level: ultra" ∧
    (Manim.render_manim_animation ⟨true, ""⟩ Manim.renvOK "MyScene" none "ultra").2 =
      [Manim.Subproc.manimCheck "python3"] ∧
    (Manim.render_manim_animation ⟨true, ""⟩ Manim.renvOK "MyScene" none "ultra").2 ≠ [] := by
  refine ⟨by decide, by decide, by decide⟩

/-- C4 (amended): for every quality outside the fixed four-element set,
`render_manim_animation` never launches the rendering subprocess for any
environment, and when the pre-render environment checks pass it
deterministically returns exactly the `Unknown quality level` validation
error having launched only the manim-availability check. -/
theorem render_unknown_quality_validation
    (cfg : Manim.Cfg) (env : Manim.RenderEnv) (scene : String)
    (fp? : Option String) (quality : String)
    (hq : Manim.qualityFlag quality = none) :
    (∀ p ∈ (Manim.render_manim_animation cfg env scene fp? quality).2,
      p.isRenderCmd = false) ∧
    (env.fileExists = true → env.manimCheckRaises = false →
     env.manimCheckRc = 0 → env.mkMediaOk = true → env.mediaWritable = true →
     env.mkTempOk = true → env.linkOk = true →
      Manim.render_manim_animation cfg env scene fp? quality =
        ("Error: Unknown quality level: " ++ quality,
         [Manim.Subproc.manimCheck env.pythonExe])) := by
  constructor
  · rcases env with ⟨fe, jid, py, md, mcr, mcm, rc, mce, mmo, mme, mw, mto, mte,
      lo, le, runv, eoe, co, ce, wc, mjf⟩
    intro p hp
    by_cases hrc : rc = 0 <;>
      cases fe <;> cases mcr <;> cases mmo <;> cases mw <;> cases mto <;> cases lo <;>
        simp_all [Manim.render_manim_animation, Manim.Subproc.isRenderCmd]
  · intro h1 h2 h3 h4 h5 h6 h7
    simp [Manim.render_manim_animation, h1, h2, h3, h4, h5, h6, h7, hq]

/-- C4 witness: the amended guarantee evaluated at a concrete unknown
quality with every environment check passing. -/
theorem render_unknown_quality_validation_witness :
    Manim.qualityFlag "ultra" = none ∧
    Manim.render_manim_animation ⟨true, ""⟩ Manim.renvOK "MyScene" none "ultra" =
      ("Error: Unknown quality level: ultra", [Manim.Subproc.manimCheck "python3"]) :=
  ⟨rfl,
   (render_unknown_quality_validation ⟨true, ""⟩ Manim.renvOK "MyScene" none "ultra" rfl).2
     rfl rfl rfl rfl rfl rfl rfl⟩

/-- A render environment identical to `Manim.renvOK` except that the
rendering subprocess exits with return code 1 (stderr `"boom"`) and no
output artifact is produced. -/
def Manim.renvFail : Manim.RenderEnv :=
  { Manim.renvOK with
    run := .done 1 "" "boom"
    expectedOutputExists := false }

set_option maxRecDepth 4000 in
/-- C7 (code-bug exhibit): when the rendering subprocess exits with return
code 1, the tool response opens with `Animation rendered successfully! Job
ID: ...` — a success header — while also containing `Rendering failed`,
and it is not prefixed with `Error`. -/
theorem render_nonzero_exit_claims_success :
    Manim.strStarts
      (Manim.render_manim_animation ⟨true, ""⟩ Manim.renvFail "MyScene" none "low_quality").1
      "Animation rendered successfully! Job ID: j1" = true ∧
    Manim.strHasInfix
      (Manim.render_manim_animation ⟨true, ""⟩ Manim.renvFail "MyScene" none "low_quality").1
      "Rendering failed" = true ∧
    Manim.strStarts
      (Manim.render_manim_animation ⟨true, ""⟩ Manim.renvFail "MyScene" none "low_quality").1
      "Error" = false := by
  refine ⟨by decide, by decide, by decide⟩

/-! ## Claim C10: `GET /video/{filename}` basename confinement -/

/-- Every `serveDecision` outcome is a 404 or a file of the output tree. -/
theorem Bridge.serveDecision_spec (fs : Bridge.OutputFs) (filename : String)
    (vp : Option String) :
    Bridge.serveDecision fs filename vp = .notFound filename ∨
      ∃ p, Bridge.serveDecision fs filename vp = .serve p ∧
        p ∈ Bridge.outputFiles fs := by
  cases vp with
  | none => exact Or.inl rfl
  | some p =>
    by_cases h : Bridge.isOutputFile fs p = true
    · exact Or.inr ⟨p, by simp [Bridge.serveDecision, h],
        Bridge.mem_outputFiles_of_isOutputFile fs p h⟩
    · left
      simp only [Bridge.serveDecision]
      rw [if_neg (by simpa using h)]

/-- C10: `serve_video` depends on the requested filename only through its
basename (so `/` and `..` segments are stripped before lookup), and its
outcome is either a 404 or a file residing in the output directory tree. -/
theorem serve_video_basename_confinement (fs : Bridge.OutputFs) (f₁ f₂ : String) :
    (Manim.pyBasename f₁ = Manim.pyBasename f₂ →
      Bridge.serve_video fs f₁ = Bridge.serve_video fs f₂) ∧
    (Bridge.serve_video fs f₁ = .notFound (Manim.pyBasename f₁) ∨
      ∃ p, Bridge.serve_video fs f₁ = .serve p ∧ p ∈ Bridge.outputFiles fs) := by
  constructor
  · intro h
    simp only [Bridge.serve_video, h]
  · exact Bridge.serveDecision_spec fs (Manim.pyBasename f₁) _

/-- A concrete output tree: `output/vid.mp4` plus a rendered scene in a
subdirectory. -/
def Bridge.demoFs : Bridge.OutputFs :=
  [("output", ["vid.mp4"]), ("output/videos", ["Scene.mp4"])]

/-- C10 witness: a traversal-laden request resolves exactly like its plain
basename, which is served from inside the output tree. -/
theorem serve_video_basename_confinement_witness :
    Manim.pyBasename "../../etc/vid.mp4" = Manim.pyBasename "vid.mp4" ∧
    Bridge.serve_video Bridge.demoFs "../../etc/vid.mp4" =
      Bridge.serve_video Bridge.demoFs "vid.mp4" ∧
    Bridge.serve_video Bridge.demoFs "vid.mp4" = .serve "output/vid.mp4" :=
  ⟨by decide,
   (serve_video_basename_confinement Bridge.demoFs "../../etc/vid.mp4" "vid.mp4").1
     (by decide),
   by decide⟩

/-! ## Claims C1, C2, C9: bridge process lifecycle and request ids -/

/-- A call environment whose spawn succeeds but whose handshake response
line is not valid JSON; a later response read would succeed. -/
def Bridge.envBadHandshake : Bridge.CallEnv :=
  { start := { spawnOk := true, initLine := .invalid "This is not JSON" },
    respLine := .parsed (.obj [("result", .null)]),
    stderrLine := none }

/-- A call environment for which spawn, handshake and the response read
all succeed. -/
def Bridge.envGood : Bridge.CallEnv :=
  { start := { spawnOk := true, initLine := .parsed (.obj [("result", .obj [])]) },
    respLine := .parsed (.obj [("result", .null)]),
    stderrLine := none }

/-- A call environment whose response read returns no line (end of
stream), with nothing on stderr. -/
def Bridge.envEofRead : Bridge.CallEnv :=
  { start := { spawnOk := true, initLine := .parsed (.obj [("result", .obj [])]) },
    respLine := .noLine,
    stderrLine := none }

/-- On an already-started process handle, `send_mcp_request` performs no
spawn attempt, allocates id counter+1 and sends exactly one request. -/
theorem Bridge.send_mcp_request_started (st : Bridge.BridgeState) (m : String)
    (env : Bridge.CallEnv) (h : st.mcp_process = some ()) :
    (Bridge.send_mcp_request st m env).1 =
      { mcp_process := some (), request_id_counter := st.request_id_counter + 1 } ∧
    (Bridge.send_mcp_request st m env).2.2 =
      { spawnAttempts := 0,
        sent := [{ id := some (st.request_id_counter + 1), method := m }] } := by
  rcases st with ⟨proc, c⟩
  rcases proc with _ | u
  · simp at h
  · cases u
    rcases env with ⟨se, rl, sl⟩
    cases rl <;> [rcases sl with _ | e; skip; skip] <;>
      simp [Bridge.send_mcp_request]

/-- On an already-started process handle, an empty response read yields
the stderr diagnostic when one is available, else the `No response`
error. -/
theorem Bridge.send_mcp_request_noLine (st : Bridge.BridgeState) (m : String)
    (env : Bridge.CallEnv) (h : st.mcp_process = some ())
    (hr : env.respLine = Bridge.LineRead.noLine) :
    (Bridge.send_mcp_request st m env).2.1.errMsg? =
      some (match env.stderrLine with
            | some e => "MCP server error: " ++ e
            | none => "No response from MCP server") := by
  rcases st with ⟨proc, c⟩
  rcases proc with _ | u
  · simp at h
  · cases u
    rcases env with ⟨se, rl, sl⟩
    simp only at hr
    subst hr
    rcases sl with _ | e <;>
      simp [Bridge.send_mcp_request, Bridge.MCPResult.errMsg?]

/-- C1 (code-bug exhibit): starting from the fresh bridge, a call whose
spawn succeeds but whose handshake line is invalid JSON returns the
structured `Failed to start MCP server` error, yet leaves `mcp_process`
set (half-initialized); the next call performs no spawn attempt and sends
its request on the stale handle. -/
theorem handshake_failure_keeps_half_initialized_process :
    (Bridge.send_mcp_request Bridge.BridgeState.initial "tools/list"
        Bridge.envBadHandshake).2.1.errMsg? = some "Failed to start MCP server" ∧
    (Bridge.send_mcp_request Bridge.BridgeState.initial "tools/list"
        Bridge.envBadHandshake).2.2.spawnAttempts = 1 ∧
    (Bridge.send_mcp_request Bridge.BridgeState.initial "tools/list"
        Bridge.envBadHandshake).1 =
      { mcp_process := some (), request_id_counter := 0 } ∧
    (Bridge.send_mcp_request
        (Bridge.send_mcp_request Bridge.BridgeState.initial "tools/list"
          Bridge.envBadHandshake).1
        "tools/list" Bridge.envGood).2.2 =
      { spawnAttempts := 0, sent := [{ id := some 1, method := "tools/list" }] } ∧
    (Bridge.send_mcp_request
        (Bridge.send_mcp_request Bridge.BridgeState.initial "tools/list"
          Bridge.envBadHandshake).1
        "tools/list" Bridge.envGood).2.1.isOk = true := by
  refine ⟨rfl, rfl, rfl, rfl, rfl⟩

/-- C2 counterexample: on the first child process, the `initialize`
handshake carries the hardcoded id 1 and the first subsequent request also
receives id 1 from the counter — the same id is used twice within one
child-process lifetime. -/
theorem handshake_and_first_request_share_id :
    ((Bridge.send_mcp_request Bridge.BridgeState.initial "tools/list"
        Bridge.envGood).2.2.sent.filterMap Bridge.OutMsg.id) = [1, 1] ∧
    ¬ ((Bridge.send_mcp_request Bridge.BridgeState.initial "tools/list"
        Bridge.envGood).2.2.sent.filterMap Bridge.OutMsg.id).Nodup := by
  refine ⟨rfl, by decide⟩

/-- C2 (amended): requests issued by `send_mcp_request` on a started
process draw consecutive, strictly increasing, never-reused ids
(counter+1, counter+2, …), while the `initialize` handshake instead
carries the fixed id 1 — which collides with the first counter-allocated
id on the first child process. -/
theorem send_request_ids_consecutive
    (st : Bridge.BridgeState) (h : st.mcp_process = some ())
    (calls : List (String × Bridge.CallEnv)) :
    (Bridge.runSends st calls).2.filterMap Bridge.OutMsg.id =
      List.range' (st.request_id_counter + 1) calls.length ∧
    ((Bridge.runSends st calls).2.filterMap Bridge.OutMsg.id).Nodup ∧
    (∀ st' env, st'.mcp_process = none → env.spawnOk = true →
      ((Bridge.start_mcp_server st' env).2.2.sent.map Bridge.OutMsg.id).head? =
        some (some 1)) := by
  have main : (Bridge.runSends st calls).2.filterMap Bridge.OutMsg.id =
      List.range' (st.request_id_counter + 1) calls.length := by
    induction calls generalizing st with
    | nil => simp [Bridge.runSends]
    | cons hd tl ih =>
      obtain ⟨h1, h2⟩ := Bridge.send_mcp_request_started st hd.1 hd.2 h
      have hnext := ih (Bridge.send_mcp_request st hd.1 hd.2).1 (by rw [h1])
      simp [Bridge.runSends, h2, hnext, h1, List.range'_succ] at *
      simpa [h1] using hnext
  refine ⟨main, ?_, ?_⟩
  · rw [main]
    exact List.nodup_range' _ _
  · intro st' env h' hs
    have hn : st'.mcp_process.isSome = false := by simp [h']
    cases henv : env.initLine <;>
      simp [Bridge.start_mcp_server, hn, hs, henv] <;>
      split <;> simp

/-- C2 witness: three calls on a started process with counter 0 send ids
1, 2, 3, and the handshake message of a fresh spawn carries id 1. -/
theorem send_request_ids_consecutive_witness :
    (Bridge.runSends { mcp_process := some (), request_id_counter := 0 }
        [("tools/list", Bridge.envGood), ("tools/call", Bridge.envGood),
         ("tools/call", Bridge.envGood)]).2.filterMap Bridge.OutMsg.id = [1, 2, 3] :=
  (send_request_ids_consecutive
    { mcp_process := some (), request_id_counter := 0 } rfl
    [("tools/list", Bridge.envGood), ("tools/call", Bridge.envGood),
     ("tools/call", Bridge.envGood)]).1

/-- C9 counterexample: on a started handle, a call whose response read
returns no line yields the `No response from MCP server` error dictionary,
but the handle is not invalidated (`mcp_process` stays set) and the
following call performs no spawn attempt — no respawn happens. -/
theorem empty_read_no_invalidation_no_respawn :
    (Bridge.send_mcp_request { mcp_process := some (), request_id_counter := 5 }
        "tools/call" Bridge.envEofRead).2.1.errMsg? =
      some "No response from MCP server" ∧
    (Bridge.send_mcp_request { mcp_process := some (), request_id_counter := 5 }
        "tools/call" Bridge.envEofRead).1 =
      { mcp_process := some (), request_id_counter := 6 } ∧
    (Bridge.send_mcp_request
        (Bridge.send_mcp_request { mcp_process := some (), request_id_counter := 5 }
          "tools/call" Bridge.envEofRead).1
        "tools/call" Bridge.envGood).2.2.spawnAttempts = 0 := by
  refine ⟨rfl, rfl, rfl⟩

/-- C9 (amended): there is no read timeout; when the child produces no
output line (end of stream on `readline`), `send_mcp_request` returns a
structured error (the stderr diagnostic when available, else `No response
from MCP server`), the child-process handle is not invalidated, and the
next call performs no spawn attempt — it reuses the same handle. -/
theorem empty_read_returns_error_keeps_handle
    (st : Bridge.BridgeState) (m m' : String) (env env' : Bridge.CallEnv)
    (h : st.mcp_process = some ()) (hr : env.respLine = Bridge.LineRead.noLine) :
    (Bridge.send_mcp_request st m env).2.1.errMsg? =
      some (match env.stderrLine with
            | some e => "MCP server error: " ++ e
            | none => "No response from MCP server") ∧
    (Bridge.send_mcp_request st m env).1.mcp_process = some () ∧
    (Bridge.send_mcp_request (Bridge.send_mcp_request st m env).1 m' env').2.2.spawnAttempts
      = 0 := by
  obtain ⟨h1, _⟩ := Bridge.send_mcp_request_started st m env h
  have hkeep : (Bridge.send_mcp_request st m env).1.mcp_process = some () := by
    rw [h1]
  obtain ⟨_, h3⟩ :=
    Bridge.send_mcp_request_started (Bridge.send_mcp_request st m env).1 m' env' hkeep
  exact ⟨Bridge.send_mcp_request_noLine st m env h hr, hkeep, by rw [h3]⟩

/-- C9 witness: the amended guarantee evaluated on a started handle with
an end-of-stream read and empty stderr. -/
theorem empty_read_returns_error_keeps_handle_witness :
    (Bridge.send_mcp_request { mcp_process := some (), request_id_counter := 7 }
        "tools/list" Bridge.envEofRead).2.1.errMsg? =
      some "No response from MCP server" ∧
    (Bridge.send_mcp_request { mcp_process := some (), request_id_counter := 7 }
        "tools/list" Bridge.envEofRead).1.mcp_process = some () ∧
    (Bridge.send_mcp_request
        (Bridge.send_mcp_request { mcp_process := some (), request_id_counter := 7 }
          "tools/list" Bridge.envEofRead).1
        "tools/list" Bridge.envGood).2.2.spawnAttempts = 0 :=
  empty_read_returns_error_keeps_handle
    { mcp_process := some (), request_id_counter := 7 }
    "tools/list" "tools/list" Bridge.envEofRead Bridge.envGood rfl rfl
